import Mathlib

/-!
Verification of the task-lifecycle wrapper CoroutineClass
(src/toolbox/asyncio/pattern.py) by a shallow embedding.

The wrapped entry point is modelled abstractly by the value it would return
on natural completion.  The asyncio task owned by the handle is a small state
machine: it is pending (possibly with cancellation requested), finished with
a result, or terminal-cancelled.  The event loop is modelled by an explicit
step (advance) that drives a pending task to its terminal state and then
fires the done callback, which the code registers to be self.stop.
Python attribute absence (self.result is only ever created inside stop) and
raised faults (AttributeError, CancelledError) are modelled explicitly.
-/

/-- Python faults relevant to the wrapper. -/
inductive PyErr : Type
  | attributeError
  | cancelledError
  deriving DecidableEq, Repr

/-- State of the asyncio task owned by a handle.

  * pending c : scheduled, not yet terminal; c records whether cancellation
    was requested (Task.cancel on a pending task).  Task.cancelled() is
    False in this state, Task.done() is False.
  * doneResult v : ran to natural completion returning v.  Task.done() is
    True, Task.cancelled() is False, Task.result() yields v.
  * doneCancelled : terminal after cancellation.  Task.done() and
    Task.cancelled() are True; Task.result() raises CancelledError. -/
inductive TaskState (α : Type) : Type
  | pending (cancelRequested : Bool)
  | doneResult (v : α)
  | doneCancelled
  deriving DecidableEq, Repr

namespace TaskState

/-- Task.cancelled(): true only for a terminal-cancelled task. -/
def cancelled : TaskState α → Bool
  | doneCancelled => true
  | _ => false

/-- Task.done(): true for either terminal state. -/
def done : TaskState α → Bool
  | pending _ => false
  | _ => true

/-- Task.cancel(): requests cancellation of a pending task; a terminal task
is unchanged. -/
def cancel : TaskState α → TaskState α
  | pending _ => pending true
  | t => t

/-- Value the result slot holds for a terminal task: the returned value
after natural completion, absence after cancellation. -/
def terminalValue : TaskState α → Option α
  | doneResult v => some v
  | _ => none

end TaskState

/-- State of a CoroutineClass handle.

  * task : self._task (None before the first run()).
  * result : self.result; this attribute does not exist after __init__
    (outer none) and is created by stop(); some r is the attribute holding
    the Python value r (itself None or a result).
  * startCalls / endCalls : how often the start/end callbacks fired.
  * loopRunning : self._loop.is_running() for the loop captured at
    construction. -/
structure Handle (α : Type) : Type where
  task : Option (TaskState α)
  result : Option (Option α)
  startCalls : Nat
  endCalls : Nat
  loopRunning : Bool
  deriving DecidableEq, Repr

/-- CoroutineClass.__init__ with run=False: no task, no result attribute,
no callback has fired. -/
def Handle.init (α : Type) (loopRunning : Bool) : Handle α :=
  { task := none, result := none, startCalls := 0, endCalls := 0,
    loopRunning := loopRunning }

/-- CoroutineClass.stop translated line by line.  Returns the mutated handle
together with either the returned value or the fault raised.

    if self._task and not self._task.cancelled():
        if self._end_callback: self._end_callback()
        self._task.cancel()
    self.result = None
    if self._task.done():            -- AttributeError when _task is None
        try: self.result = self._task.result()
        except asyncio.CancelledError: pass
    return self.result -/
def stopOp (h : Handle α) : Handle α × Except PyErr (Option α) :=
  let h1 : Handle α :=
    match h.task with
    | some t =>
      if t.cancelled then h
      else { h with endCalls := h.endCalls + 1, task := some t.cancel }
    | none => h
  let h2 : Handle α := { h1 with result := some none }
  match h2.task with
  | none => (h2, Except.error PyErr.attributeError)
  | some (TaskState.doneResult v) =>
      ({ h2 with result := some (some v) }, Except.ok (some v))
  | some TaskState.doneCancelled => (h2, Except.ok none)
  | some (TaskState.pending _) => (h2, Except.ok none)

/-- One step of the cooperative scheduler: a pending task reaches its
terminal state (cancelled if cancellation was requested, otherwise finished
with the entry point's value v), after which the loop fires the done
callback, which run() registered to be self.stop.  A handle without a
pending task is unchanged. -/
def advance (v : α) (h : Handle α) : Handle α :=
  match h.task with
  | some (TaskState.pending c) =>
      (stopOp { h with
        task := some (if c then TaskState.doneCancelled
                      else TaskState.doneResult v) }).1
  | _ => h

/-- CoroutineClass.run translated line by line.  The Python return value is
None (modelled none) on the non-blocking paths and self.result on the
blocking path.

    if not self._task or self._task.cancelled():
        if self._start_callback: self._start_callback()
        self._task = self._loop.create_task(self._func())
        self._task.add_done_callback(self.stop)
        if not self._loop.is_running():
            self._loop.run_until_complete(self._task)
            return self.result -/
def runOp (v : α) (h : Handle α) : Handle α × Except PyErr (Option (Option α)) :=
  let guard : Bool :=
    match h.task with
    | none => true
    | some t => t.cancelled
  if guard then
    let h1 : Handle α :=
      { h with startCalls := h.startCalls + 1,
               task := some (TaskState.pending false) }
    if h1.loopRunning then (h1, Except.ok none)
    else
      let h2 := advance v h1
      match h2.result with
      | some r => (h2, Except.ok (some r))
      | none => (h2, Except.error PyErr.attributeError)
  else (h, Except.ok none)

/-- CoroutineClass.__aenter__: calls self.run() (return value discarded) and
yields the handle itself. -/
def aenterOp (v : α) (h : Handle α) : Handle α :=
  (runOp v h).1

/-- CoroutineClass.__aexit__ translated line by line; the handle is not
mutated.  The Python return value is self._task.cancelled() when a task
exists and the implicit None otherwise.

    if self._task:
        return self._task.cancelled() -/
def aexitOp (h : Handle α) : Handle α × Option Bool :=
  match h.task with
  | some t => (h, some t.cancelled)
  | none => (h, none)

/-- Truthiness of the value __aexit__ returns to the Python runtime: a true
return suppresses the fault leaving the with-body, None and False do not. -/
def truthy : Option Bool → Bool
  | some b => b
  | none => false

/-- Outcome at the boundary of an async-with scope whose body raised fault
e: the fault propagates to the surrounding code unless __aexit__ returned a
truthy value. -/
def scopedBodyFault (h : Handle α) (e : PyErr) : Except PyErr Unit :=
  if truthy (aexitOp h).2 then Except.ok () else Except.error e

/-- CoroutineClass.__await__: runs only when no task reference exists, then
awaits the task.  Awaiting suspends until the task is terminal (the loop
advances it; the done callback registered by run() fires before the awaiter
resumes), then yields the result of a naturally completed task and raises
CancelledError for a cancelled one.

    if not self._task:
        self.run()
    return self._task.__await__() -/
def awaitOp (v : α) (h : Handle α) : Handle α × Except PyErr α :=
  let h1 : Handle α :=
    match h.task with
    | none => (runOp v h).1
    | some _ => h
  let h2 := advance v h1
  match h2.task with
  | some (TaskState.doneResult w) => (h2, Except.ok w)
  | _ => (h2, Except.error PyErr.cancelledError)

/-- Reading the result attribute of a handle: raises AttributeError while
the attribute does not exist, otherwise yields its value. -/
def readResult (h : Handle α) : Except PyErr (Option α) :=
  match h.result with
  | none => Except.error PyErr.attributeError
  | some r => Except.ok r

/-! Theorems settling the claims. -/

/-- Claim C1, counterexample: entering the scope on a fresh handle in an
async context schedules work; exiting the scope leaves that work pending,
with no cancellation requested, the end callback never fired and no result
captured — so the exit path does not perform stop() and the work is not
cleaned up. -/
theorem c1_counterexample :
    (aexitOp (aenterOp 7 (Handle.init Nat true))).1.task
      = some (TaskState.pending false) ∧
    (aexitOp (aenterOp 7 (Handle.init Nat true))).1.endCalls = 0 ∧
    (aexitOp (aenterOp 7 (Handle.init Nat true))).2 = some false :=
  ⟨rfl, rfl, rfl⟩

/-- Claim C1 as amended: scope exit performs no stop() and does not mutate
the handle at all; it merely returns whether the task is terminal-cancelled
(None when no task exists).  Cleanup via stop() happens only through the
done callback when the work itself reaches a terminal state. -/
theorem aexit_performs_no_stop (α : Type) (h : Handle α) :
    (aexitOp h).1 = h ∧
    (∀ t, h.task = some t → (aexitOp h).2 = some t.cancelled) ∧
    (h.task = none → (aexitOp h).2 = none) := by
  refine ⟨?_, ?_, ?_⟩ <;> cases htask : h.task <;> simp [aexitOp, htask]

theorem aexit_performs_no_stop_witness :
    (aexitOp (Handle.init Nat true)).1 = Handle.init Nat true ∧
    (aexitOp (Handle.init Nat true)).2 = none :=
  ⟨(aexit_performs_no_stop Nat (Handle.init Nat true)).1,
   (aexit_performs_no_stop Nat (Handle.init Nat true)).2.2 rfl⟩

/-- Claim C2, counterexample: stop() on a freshly constructed handle, on
which start() was never called, raises AttributeError (self._task is None
and stop reads self._task.done()), so it is not a non-raising no-op. -/
theorem c2_counterexample :
    (stopOp (Handle.init Nat true)).2 = Except.error PyErr.attributeError :=
  rfl

/-- Claim C2 as amended: on a handle whose task has reached a terminal
state and whose result slot holds the captured value, stop() does not raise,
returns the captured result unchanged, and leaves task and result slots
unchanged; but on a freshly constructed handle with no task, stop() raises
AttributeError. -/
theorem stop_terminal_idempotent (α : Type) (h : Handle α) (t : TaskState α)
    (ht : h.task = some t) (hdone : t.done = true)
    (hres : h.result = some t.terminalValue) :
    (stopOp h).2 = Except.ok t.terminalValue ∧
    (stopOp h).1.task = h.task ∧
    (stopOp h).1.result = h.result := by
  cases t with
  | pending c => simp [TaskState.done] at hdone
  | doneResult v =>
      simp [stopOp, ht, TaskState.cancelled, TaskState.cancel,
            TaskState.terminalValue, hres]
  | doneCancelled =>
      simp [stopOp, ht, TaskState.cancelled, TaskState.terminalValue, hres]

theorem stop_terminal_idempotent_witness :
    (stopOp { task := some (TaskState.doneResult 5), result := some (some 5),
              startCalls := 1, endCalls := 1,
              loopRunning := true : Handle Nat }).2 = Except.ok (some 5) ∧
    (stopOp { task := some (TaskState.doneResult 5), result := some (some 5),
              startCalls := 1, endCalls := 1,
              loopRunning := true : Handle Nat }).1.task
      = some (TaskState.doneResult 5) :=
  ⟨(stop_terminal_idempotent Nat _ (TaskState.doneResult 5) rfl rfl rfl).1,
   (stop_terminal_idempotent Nat _ (TaskState.doneResult 5) rfl rfl rfl).2.1⟩

/-- Claim C3, counterexample: awaiting a handle whose task is
terminal-cancelled raises CancelledError to the awaiter instead of yielding
absence of a result, and does not implicitly start new work although no
work is outstanding. -/
theorem c3_counterexample :
    (awaitOp 7 { task := some TaskState.doneCancelled, result := some none,
                 startCalls := 1, endCalls := 1,
                 loopRunning := true : Handle Nat }).2
      = Except.error PyErr.cancelledError ∧
    (awaitOp 7 { task := some TaskState.doneCancelled, result := some none,
                 startCalls := 1, endCalls := 1,
                 loopRunning := true : Handle Nat }).1.startCalls = 1 :=
  ⟨rfl, rfl⟩

/-- Claim C3 as amended: awaiting implicitly starts the work only when no
task reference exists at all, suspends until the work is terminal, yields
the return value on natural completion, and surfaces cancellation as a
raised CancelledError, not as absence of a result. -/
theorem await_amended (α : Type) (v : α) (h : Handle α)
    (hlr : h.loopRunning = true) :
    (h.task = none →
       (awaitOp v h).2 = Except.ok v ∧
       (awaitOp v h).1.startCalls = h.startCalls + 1) ∧
    (∀ w, h.task = some (TaskState.doneResult w) →
       (awaitOp v h).2 = Except.ok w) ∧
    (h.task = some TaskState.doneCancelled →
       (awaitOp v h).2 = Except.error PyErr.cancelledError) ∧
    (h.task = some (TaskState.pending false) →
       (awaitOp v h).2 = Except.ok v) ∧
    (h.task = some (TaskState.pending true) →
       (awaitOp v h).2 = Except.error PyErr.cancelledError) := by
  refine ⟨?_, ?_, ?_, ?_, ?_⟩
  · intro ht
    constructor <;>
      simp [awaitOp, runOp, advance, stopOp, ht, hlr, TaskState.cancelled,
            TaskState.cancel]
  · intro w ht
    simp [awaitOp, advance, ht]
  · intro ht
    simp [awaitOp, advance, ht]
  · intro ht
    simp [awaitOp, advance, stopOp, ht, TaskState.cancelled, TaskState.cancel]
  · intro ht
    simp [awaitOp, advance, stopOp, ht, TaskState.cancelled]

theorem await_amended_witness :
    (awaitOp 7 (Handle.init Nat true)).2 = Except.ok 7 ∧
    (awaitOp 7 (Handle.init Nat true)).1.startCalls = 0 + 1 :=
  (await_amended Nat 7 (Handle.init Nat true) rfl).1 rfl

/-- Claim C4 (confirmed): while work is outstanding (a pending task, with
or without a cancellation request, is not terminal-cancelled), a second
start() is a no-op: the handle is unchanged — no new unit of work, no
further start-callback firing — and run() returns None.  Moreover, from a
fresh handle in an async context, start(); start() leaves exactly one unit
of work scheduled and the start callback fired exactly once. -/
theorem start_idempotent (α : Type) (v w : α) (h : Handle α) (c : Bool)
    (ht : h.task = some (TaskState.pending c)) :
    runOp w h = (h, Except.ok none) ∧
    (runOp w (runOp v (Handle.init α true)).1).1
      = (runOp v (Handle.init α true)).1 ∧
    ((runOp v (Handle.init α true)).1).startCalls = 1 ∧
    ((runOp v (Handle.init α true)).1).task = some (TaskState.pending false) := by
  refine ⟨?_, ?_, rfl, rfl⟩
  · simp [runOp, ht, TaskState.cancelled]
  · simp [runOp, TaskState.cancelled, Handle.init]

theorem start_idempotent_witness :
    runOp 9 { task := some (TaskState.pending false), result := none,
              startCalls := 1, endCalls := 0,
              loopRunning := true : Handle Nat }
      = ({ task := some (TaskState.pending false), result := none,
           startCalls := 1, endCalls := 0, loopRunning := true },
         Except.ok none) :=
  (start_idempotent Nat 9 9 _ false rfl).1

/-- Claim C5 (confirmed): starting a fresh handle in an async context and
letting the scheduler drive the work to natural completion captures the
entry point's return value: the result slot holds it, a subsequent stop()
returns it, and awaiting the handle yields it. -/
theorem natural_completion_result (α : Type) (v : α) :
    (advance v (runOp v (Handle.init α true)).1).result = some (some v) ∧
    (stopOp (advance v (runOp v (Handle.init α true)).1)).2
      = Except.ok (some v) ∧
    (awaitOp v (advance v (runOp v (Handle.init α true)).1)).2
      = Except.ok v :=
  ⟨rfl, rfl, rfl⟩

/-- Claim C6, counterexample: on a handle whose task completed naturally,
a subsequent start() is a no-op — run()'s guard (not self._task or
self._task.cancelled()) is false — so no new unit of work is scheduled and
the lifecycle does not permit restart after the natural-completion terminal
outcome. -/
theorem c6_counterexample :
    runOp 7 { task := some (TaskState.doneResult 5), result := some (some 5),
              startCalls := 1, endCalls := 1,
              loopRunning := true : Handle Nat }
      = ({ task := some (TaskState.doneResult 5), result := some (some 5),
           startCalls := 1, endCalls := 1, loopRunning := true },
         Except.ok none) :=
  rfl

/-- Claim C6 as amended: restart is possible only after the cancelled
terminal outcome: start() on a terminal-cancelled task (in a running loop)
schedules a new unit of work and fires the start callback again, whereas
start() after natural completion has no effect. -/
theorem restart_after_cancel_only (α : Type) (v : α) (h : Handle α)
    (hlr : h.loopRunning = true) :
    (h.task = some TaskState.doneCancelled →
       (runOp v h).1.task = some (TaskState.pending false) ∧
       (runOp v h).1.startCalls = h.startCalls + 1) ∧
    (∀ w, h.task = some (TaskState.doneResult w) →
       runOp v h = (h, Except.ok none)) := by
  constructor
  · intro ht
    constructor <;> simp [runOp, ht, TaskState.cancelled, hlr]
  · intro w ht
    simp [runOp, ht, TaskState.cancelled]

theorem restart_after_cancel_only_witness :
    (runOp 3 { task := some TaskState.doneCancelled, result := some none,
               startCalls := 1, endCalls := 1,
               loopRunning := true : Handle Nat }).1.task
      = some (TaskState.pending false) ∧
    (runOp 3 { task := some TaskState.doneCancelled, result := some none,
               startCalls := 1, endCalls := 1,
               loopRunning := true : Handle Nat }).1.startCalls = 1 + 1 :=
  (restart_after_cancel_only Nat 3 _ rfl).1 rfl

/-- Claim C7 (confirmed): start() then stop() before the work completes
yields an absent result without a fault: stop() returns None, the result
slot is absent, and once the scheduler drives the cancelled work to its
terminal state the task is terminal-cancelled and the result stays absent. -/
theorem stop_before_completion (α : Type) (v : α) :
    (stopOp (runOp v (Handle.init α true)).1).2 = Except.ok none ∧
    (stopOp (runOp v (Handle.init α true)).1).1.result = some none ∧
    (advance v (stopOp (runOp v (Handle.init α true)).1).1).task
      = some TaskState.doneCancelled ∧
    (advance v (stopOp (runOp v (Handle.init α true)).1).1).result
      = some none :=
  ⟨rfl, rfl, rfl, rfl⟩

/-- Claim C8, counterexample: on a freshly constructed handle the result
attribute does not exist (init never creates it), so reading the result
before any start raises AttributeError instead of yielding absence of a
result. -/
theorem c8_counterexample :
    readResult (Handle.init Nat true) = Except.error PyErr.attributeError :=
  rfl

/-- Claim C8 as amended: reading the result of a freshly constructed handle
raises AttributeError, because the attribute is created only inside stop();
after any stop() call — even one that itself raises — the attribute exists,
so reads from then on yield a value rather than raising. -/
theorem read_before_start_raises (α : Type) :
    readResult (Handle.init α true) = Except.error PyErr.attributeError ∧
    ∀ h : Handle α, ((stopOp h).1.result).isSome = true := by
  refine ⟨rfl, ?_⟩
  intro h
  rcases htask : h.task with _ | t
  · simp [stopOp, htask]
  · cases t <;> simp [stopOp, htask, TaskState.cancelled, TaskState.cancel]

/-- Claim C9 (confirmed): on a fresh handle, start() invoked while the
captured loop is not running blocks — it drives the work to its terminal
state before returning — and returns the captured result; start() invoked
while the loop is running returns None immediately, leaving the work
pending. -/
theorem run_sync_blocks (α : Type) (v : α) (h : Handle α)
    (ht : h.task = none) :
    (h.loopRunning = false →
       (runOp v h).2 = Except.ok (some (some v)) ∧
       (runOp v h).1.task = some (TaskState.doneResult v)) ∧
    (h.loopRunning = true →
       (runOp v h).2 = Except.ok none ∧
       (runOp v h).1.task = some (TaskState.pending false)) := by
  constructor
  · intro hlr
    constructor <;>
      simp [runOp, advance, stopOp, ht, hlr, TaskState.cancelled,
            TaskState.cancel]
  · intro hlr
    constructor <;> simp [runOp, ht, hlr]

theorem run_sync_blocks_witness :
    (runOp 3 (Handle.init Nat false)).2 = Except.ok (some (some 3)) ∧
    (runOp 3 (Handle.init Nat true)).2 = Except.ok none :=
  ⟨((run_sync_blocks Nat 3 (Handle.init Nat false) rfl).1 rfl).1,
   ((run_sync_blocks Nat 3 (Handle.init Nat true) rfl).2 rfl).1⟩

/-- Claim C10 (confirmed): with a fault raised in the scope body, the exit
handler suppresses it exactly when the task is terminal-cancelled (it then
returns True); in every other handle state — pending work, natural
completion, or no task at all — the returned value is falsy and the fault
propagates to the code surrounding the scope. -/
theorem aexit_suppresses_iff_cancelled (α : Type) (h : Handle α) (e : PyErr) :
    (scopedBodyFault h e = Except.ok ()
       ↔ h.task = some TaskState.doneCancelled) ∧
    (h.task ≠ some TaskState.doneCancelled →
       scopedBodyFault h e = Except.error e) ∧
    (aexitOp h).1 = h := by
  rcases htask : h.task with _ | t
  · simp [scopedBodyFault, aexitOp, truthy, htask]
  · cases t <;>
      simp [scopedBodyFault, aexitOp, truthy, htask, TaskState.cancelled]

theorem aexit_suppresses_iff_cancelled_witness :
    scopedBodyFault { task := some TaskState.doneCancelled,
                      result := some none, startCalls := 1, endCalls := 1,
                      loopRunning := true : Handle Nat }
        PyErr.cancelledError = Except.ok () :=
  (aexit_suppresses_iff_cancelled Nat _ PyErr.cancelledError).1.mpr rfl
